import Mathlib

/-!
Shallow embedding of the multipart-upload part-ingestion pipeline of an
S3-compatible object store: the `dataStore` data writer (stream to backend,
verify content hash, compensate on mismatch) and the `objectPutPart`
orchestrator (pre-flight validation, two-level authorization, data write,
part-metadata commit).  Collaborators (metadata store, KMS, data backend,
ACL evaluator) are modelled as an explicit `World` of outcomes, and every
collaborator invocation is recorded in a `Trace` so that statements of the
form "no data write occurs" or "batchDelete is invoked exactly once" can be
expressed as facts about the trace.
-/

/-- Symbolic error codes surfaced by the pipeline (the `arsenal` error set
restricted to the codes this pipeline can produce or propagate; `otherError`
stands for any further collaborator error, which the pipeline only passes
through). -/
inductive S3Error where
  | EntityTooLarge
  | TooManyParts
  | InvalidArgument
  | NoSuchUpload
  | NoSuchBucket
  | NoSuchKey
  | AccessDenied
  | BadDigest
  | InternalError
  | otherError (msg : String)
  deriving DecidableEq

deriving instance DecidableEq for Except

/-- A data-backend location descriptor (opaque handle). -/
abbrev Location := String

/-- A cipher bundle returned by the key-management collaborator. -/
structure CipherBundle where
  algorithm : String
  masterKeyId : String
  cryptoScheme : String
  cipheredDataKey : String
  deriving DecidableEq

/-- A bucket record as read from the metadata store.  Serves both for the
destination bucket (`serverSideEncryption` is what `getServerSideEncryption`
returns) and for the shadow (MPU) bucket (`mdBucketModelVersion` is what
`getMdBucketModelVersion` returns). -/
structure Bucket where
  serverSideEncryption : Option String
  mdBucketModelVersion : Int
  deriving DecidableEq

/-- The overview record stored in the shadow bucket; `initiatorID` is the
`initiator.ID` field read by `objectPutPart`. -/
structure OverviewRecord where
  initiatorID : String
  deriving DecidableEq

/-- The requester's authentication information (`AuthInfo`). -/
structure AuthInfo where
  canonicalID : String
  isRequesterAnIAMUser : Bool
  arn : String
  deriving DecidableEq

/-- The request fields read by `objectPutPart`.  `parsedContentLength` and
`queryPartNumber` are kept as raw optional strings (`none` models a JS
`undefined`), since the code itself applies `Number.parseInt` to them.
`contentMD5` is the caller-supplied expected content hash taken from the
stream object (`""` models an absent / falsy value). -/
structure Request where
  bucketName : String
  objectKey : String
  reqNamespace : String
  parsedContentLength : Option String
  queryPartNumber : Option String
  uploadId : String
  contentMD5 : String
  deriving DecidableEq

/-- Outcomes of the external collaborators for one request: the metadata
store (`getBucket`, `getObjectMD`, `metadataStorePart`), the ACL evaluator
(`isBucketAuthorized`), the key-management service (`createCipherBundle`)
and the data backend (`dataPut` yields the location descriptor, or `none`
when the backend violates its contract, together with the hash computed in
the same streaming pass). -/
structure World where
  getBucket : String → Except S3Error Bucket
  isBucketAuthorized : Bucket → String → String → Bool
  createCipherBundle : String → Except S3Error CipherBundle
  getObjectMD : String → String → Except S3Error OverviewRecord
  dataPut : Except S3Error (Option Location × String)
  metadataStorePart : Except S3Error Unit

/-- The part-metadata record assembled by `objectPutPart` (`mdParams`). -/
structure MDParams where
  partNumber : String
  contentMD5 : String
  size : Option String
  uploadId : String
  splitter : String
  deriving DecidableEq

/-- A data location descriptor annotated with the server-side-encryption
fields of the cipher bundle when one was used. -/
structure LocationWithSSE where
  loc : Location
  sse : Option CipherBundle
  deriving DecidableEq

/-- One invocation of `services.metadataStorePart`. -/
structure StorePartCall where
  mpuBucketName : String
  dataGetInfoArr : List LocationWithSSE
  mdParams : MDParams
  deriving DecidableEq

/-- The collaborator invocations performed while handling one request. -/
structure Trace where
  getBucketCalls : List String := []
  authCalls : Nat := 0
  kmsCalls : Nat := 0
  getObjectMDCalls : List (String × String) := []
  dataPutCalls : Nat := 0
  batchDeleteCalls : List Location := []
  storePartCalls : List StorePartCall := []
  deriving DecidableEq

/-- The empty trace: no collaborator has been contacted. -/
def Trace.empty : Trace := {}

/-- Numeric value of the maximal leading decimal-digit run of a character
list; `none` when the run is empty (JS `NaN`). -/
def digitRunVal (cs : List Char) : Option Nat :=
  let ds := cs.takeWhile Char.isDigit
  if ds.isEmpty then none
  else some (ds.foldl (fun acc c => acc * 10 + (c.toNat - 48)) 0)

/-- ECMAScript `Number.parseInt(s, 10)`: skip leading whitespace, read an
optional sign, then the longest run of decimal digits; `none` models `NaN`. -/
def jsParseInt (s : String) : Option Int :=
  match s.data.dropWhile (fun c => c = ' ') with
  | '-' :: rest => (digitRunVal rest).map (fun n => -(n : Int))
  | '+' :: rest => (digitRunVal rest).map (fun n => (n : Int))
  | cs => (digitRunVal cs).map (fun n => (n : Int))

/-- `Number.parseInt` applied to a possibly-absent value: an absent value
coerces to a string with no leading digits, hence `NaN`. -/
def jsParseIntOpt : Option String → Option Int
  | none => none
  | some s => jsParseInt s

/-- JS `s.substr(-5)`: the last five characters of `s` (all of `s` when it
is shorter). -/
def jsSubstrLastFive (s : String) : String :=
  String.mk (s.data.drop (s.data.length - 5))

/-- Zero-pad a part number so parts sort numerically: the template string
puts six zeros in front of the decimal rendering and keeps the last five
characters. -/
def _getPaddedPartNumber (number : Int) : String :=
  jsSubstrLastFive ("000000" ++ toString number)

/-- Build the overview-record key from splitter, object key and upload id. -/
def _getPrefixKey (splitter objectKey uploadId : String) : String :=
  "overview" ++ splitter ++ objectKey ++ splitter ++ uploadId

/-- Modelled from the spec: the current splitter character used to build
composite keys in the shadow bucket (`constants.splitter`; the constants
module is not among the sources at hand, which fix only that it is a single
separator character). -/
def constantsSplitter : String := "|"

/-- Modelled from the spec: the legacy splitter character
(`constants.oldSplitter`). -/
def constantsOldSplitter : String := ":"

/-- Modelled from the spec: the fixed name put in front of a destination
bucket name to obtain its shadow (MPU) bucket name
(`constants.mpuBucketPrefix`). -/
def constantsMpuShadowName : String := "mpu."

/-- Outcome of one `dataStore` invocation: the callback result together with
the list of `batchDelete` compensations issued. -/
structure DataStoreOutcome where
  result : Except S3Error (Location × String)
  deletes : List Location
  deriving DecidableEq

/-- The object data writer (`dataStore` of the storage module): given the
outcome of `data.put` (an error, or a possibly-missing location descriptor
together with the hash computed over the streamed bytes) and the
caller-supplied expected content hash, it propagates backend errors, fails
fatally when the backend returned no location, deletes the written data and
fails with `BadDigest` when a supplied expected hash and a computed hash
both exist and differ, and otherwise returns the location and the computed
hash. -/
def dataStore (putRes : Except S3Error (Option Location × String))
    (contentMD5 : String) : DataStoreOutcome :=
  match putRes with
  | .error e => ⟨.error e, []⟩
  | .ok (none, _) => ⟨.error .InternalError, []⟩
  | .ok (some dataRetrievalInfo, completedHash) =>
    if contentMD5 ≠ "" ∧ completedHash ≠ "" ∧ contentMD5 ≠ completedHash then
      ⟨.error .BadDigest, [dataRetrievalInfo]⟩
    else
      ⟨.ok (dataRetrievalInfo, completedHash), []⟩

/-- The size pre-check: `Number.parseInt(size, 10) > 5368709120` (false on a
`NaN` parse). -/
def checkSizeTooLarge (sz : Option String) : Bool :=
  match jsParseIntOpt sz with
  | some n => decide (5368709120 < n)
  | none => false

/-- Pre-flight validation of `objectPutPart`, in source order: reject
over-large sizes with `EntityTooLarge`, then part numbers above 10000 with
`TooManyParts`, then non-integer or below-1 part numbers with
`InvalidArgument`; otherwise return the parsed part number. -/
def preflight (r : Request) : Except S3Error Int :=
  if checkSizeTooLarge r.parsedContentLength then .error .EntityTooLarge
  else
    match jsParseIntOpt r.queryPartNumber with
    | some n =>
      if 10000 < n then .error .TooManyParts
      else if n < 1 then .error .InvalidArgument
      else .ok n
    | none => .error .InvalidArgument

/-- The splitter chosen for a request from the shadow bucket's schema
version: the legacy splitter below bucket model version 2, the current one
otherwise. -/
def chosenSplitter (mpuBucket : Bucket) : String :=
  if mpuBucket.mdBucketModelVersion < 2 then constantsOldSplitter
  else constantsSplitter

/-- The requester identity compared against the overview record's initiator:
the ARN for an IAM user, the canonical identity otherwise. -/
def requesterID (a : AuthInfo) : String :=
  if a.isRequesterAnIAMUser then a.arn else a.canonicalID

/-- The cipher-bundle stage: when the destination bucket declares
server-side encryption, the key-management collaborator is asked for a
bundle (its failure propagates unchanged); otherwise the bundle stays
absent. -/
def cipherResult (w : World) (bucket : Bucket) :
    Except S3Error (Option CipherBundle) :=
  match bucket.serverSideEncryption with
  | some enc => (w.createCipherBundle enc).map some
  | none => .ok none

/-- Number of key-management calls made for a bucket. -/
def kmsCallCount (bucket : Bucket) : Nat :=
  match bucket.serverSideEncryption with
  | some _ => 1
  | none => 0

/-- Attach the server-side-encryption fields of the cipher bundle, when one
exists, to the location descriptor. -/
def attachSSE (cipherBundle : Option CipherBundle) (loc : Location) :
    LocationWithSSE :=
  ⟨loc, cipherBundle⟩

/-- The part-commit orchestrator `objectPutPart`: pre-flight validation,
then the waterfall of stages — fetch the destination bucket (a missing
bucket is remapped to `NoSuchUpload`), check bucket authorization, obtain
the cipher bundle when encryption is declared, fetch the shadow bucket
(again remapping a missing bucket to `NoSuchUpload`), choose the splitter
from its schema version, look up the overview record and compare its
initiator against the requester, stream the data through `dataStore`, and
finally persist the part metadata record.  The first failing stage aborts
the rest and its error is returned.  The returned trace records every
collaborator invocation. -/
def objectPutPart (authInfo : AuthInfo) (r : Request) (w : World) :
    Except S3Error String × Trace :=
  match preflight r with
  | .error e => (.error e, Trace.empty)
  | .ok partNumber =>
    let bucketName := r.bucketName
    let canonicalID := authInfo.canonicalID
    let uploadId := r.uploadId
    let mpuBucketName := constantsMpuShadowName ++ bucketName
    let objectKey := r.objectKey
    match w.getBucket bucketName with
    | .error e =>
      (.error (if e = .NoSuchBucket then .NoSuchUpload else e),
       { getBucketCalls := [bucketName] })
    | .ok bucket =>
      if ¬ w.isBucketAuthorized bucket "objectPut" canonicalID then
        (.error .AccessDenied,
         { getBucketCalls := [bucketName], authCalls := 1 })
      else
        match cipherResult w bucket with
        | .error e =>
          (.error e,
           { getBucketCalls := [bucketName], authCalls := 1,
             kmsCalls := kmsCallCount bucket })
        | .ok cipherBundle =>
          match w.getBucket mpuBucketName with
          | .error e =>
            (.error (if e = .NoSuchBucket then .NoSuchUpload else e),
             { getBucketCalls := [bucketName, mpuBucketName], authCalls := 1,
               kmsCalls := kmsCallCount bucket })
          | .ok mpuBucket =>
            let splitter := chosenSplitter mpuBucket
            let mpuOverviewKey := _getPrefixKey splitter objectKey uploadId
            match w.getObjectMD mpuBucketName mpuOverviewKey with
            | .error e =>
              (.error e,
               { getBucketCalls := [bucketName, mpuBucketName],
                 authCalls := 1, kmsCalls := kmsCallCount bucket,
                 getObjectMDCalls := [(mpuBucketName, mpuOverviewKey)] })
            | .ok res =>
              if res.initiatorID ≠ requesterID authInfo then
                (.error .AccessDenied,
                 { getBucketCalls := [bucketName, mpuBucketName],
                   authCalls := 1, kmsCalls := kmsCallCount bucket,
                   getObjectMDCalls := [(mpuBucketName, mpuOverviewKey)] })
              else
                let ds := dataStore w.dataPut r.contentMD5
                match ds.result with
                | .error e =>
                  (.error e,
                   { getBucketCalls := [bucketName, mpuBucketName],
                     authCalls := 1, kmsCalls := kmsCallCount bucket,
                     getObjectMDCalls := [(mpuBucketName, mpuOverviewKey)],
                     dataPutCalls := 1, batchDeleteCalls := ds.deletes })
                | .ok (dataGetInfo, hexDigest) =>
                  let dataGetInfoArr := [attachSSE cipherBundle dataGetInfo]
                  let mdParams : MDParams :=
                    ⟨_getPaddedPartNumber partNumber, hexDigest,
                     r.parsedContentLength, uploadId, splitter⟩
                  let spCall : StorePartCall :=
                    ⟨mpuBucketName, dataGetInfoArr, mdParams⟩
                  match w.metadataStorePart with
                  | .error e =>
                    (.error e,
                     { getBucketCalls := [bucketName, mpuBucketName],
                       authCalls := 1, kmsCalls := kmsCallCount bucket,
                       getObjectMDCalls := [(mpuBucketName, mpuOverviewKey)],
                       dataPutCalls := 1, batchDeleteCalls := ds.deletes,
                       storePartCalls := [spCall] })
                  | .ok _ =>
                    (.ok hexDigest,
                     { getBucketCalls := [bucketName, mpuBucketName],
                       authCalls := 1, kmsCalls := kmsCallCount bucket,
                       getObjectMDCalls := [(mpuBucketName, mpuOverviewKey)],
                       dataPutCalls := 1, batchDeleteCalls := ds.deletes,
                       storePartCalls := [spCall] })

def padDigits : Nat → Nat → List Nat
  | 0, _ => []
  | k+1, n => n / 10 ^ k :: padDigits k (n % 10 ^ k)

def msdVal (e : List Nat) : Nat := e.foldl (fun a d => a * 10 + d) 0

theorem foldl_step_acc (e : List Nat) :
    ∀ acc : Nat, e.foldl (fun a d => a * 10 + d) acc
      = acc * 10 ^ e.length + msdVal e := by
  induction e with
  | nil => intro acc; simp [msdVal]
  | cons d t ih =>
    intro acc
    simp only [List.foldl_cons, List.length_cons]
    rw [ih (acc * 10 + d)]
    have h2 : msdVal (d :: t) = d * 10 ^ t.length + msdVal t := by
      show t.foldl (fun a d => a * 10 + d) (0 * 10 + d) = _
      rw [ih (0 * 10 + d)]; ring_nf
    rw [h2]; ring

theorem msdVal_cons (d : Nat) (t : List Nat) :
    msdVal (d :: t) = d * 10 ^ t.length + msdVal t := by
  show t.foldl (fun a d => a * 10 + d) (0 * 10 + d) = _
  rw [foldl_step_acc t (0 * 10 + d)]; ring_nf

theorem msdVal_lt (e : List Nat) (h : ∀ d ∈ e, d < 10) :
    msdVal e < 10 ^ e.length := by
  induction e with
  | nil => simp [msdVal]
  | cons d t ih =>
    have hd : d < 10 := h d (by simp)
    have ht := ih (fun x hx => h x (by simp [hx]))
    rw [msdVal_cons, List.length_cons]
    calc d * 10 ^ t.length + msdVal t
        < d * 10 ^ t.length + 10 ^ t.length := by omega
      _ = (d + 1) * 10 ^ t.length := by ring
      _ ≤ 10 * 10 ^ t.length := Nat.mul_le_mul_right _ (by omega)
      _ = 10 ^ (t.length + 1) := by ring

theorem padDigits_msdVal (e : List Nat) (h : ∀ d ∈ e, d < 10) :
    padDigits e.length (msdVal e) = e := by
  induction e with
  | nil => rfl
  | cons d t ih =>
    simp only [List.length_cons, padDigits]
    have hv : msdVal t < 10 ^ t.length :=
      msdVal_lt t (fun x hx => h x (by simp [hx]))
    have hpos : 0 < 10 ^ t.length := Nat.pos_pow_of_pos _ (by norm_num)
    rw [msdVal_cons]
    have hdiv : (d * 10 ^ t.length + msdVal t) / 10 ^ t.length = d := by
      rw [Nat.mul_comm d, Nat.mul_add_div hpos, Nat.div_eq_of_lt hv]
      omega
    have hmod : (d * 10 ^ t.length + msdVal t) % 10 ^ t.length = msdVal t := by
      rw [Nat.mul_comm d, Nat.mul_add_mod, Nat.mod_eq_of_lt hv]
    rw [hdiv, hmod, ih (fun x hx => h x (by simp [hx]))]

theorem msdVal_append_singleton (e : List Nat) (d : Nat) :
    msdVal (e ++ [d]) = 10 * msdVal e + d := by
  show (e ++ [d]).foldl (fun a d => a * 10 + d) 0 = _
  rw [List.foldl_append]
  show msdVal e * 10 + d = _
  ring

theorem msdVal_reverse (l : List Nat) :
    msdVal l.reverse = Nat.ofDigits 10 l := by
  induction l with
  | nil => rfl
  | cons d t ih =>
    rw [List.reverse_cons, msdVal_append_singleton, ih, Nat.ofDigits_cons]
    ring

theorem digits_reverse_pad (n : Nat) :
    padDigits (Nat.digits 10 n).length n = (Nat.digits 10 n).reverse := by
  have h : ∀ d ∈ (Nat.digits 10 n).reverse, d < 10 := fun d hd =>
    Nat.digits_lt_base (by norm_num) (List.mem_reverse.mp hd)
  have hh := padDigits_msdVal ((Nat.digits 10 n).reverse) h
  rwa [List.length_reverse, msdVal_reverse, Nat.ofDigits_digits] at hh

theorem padDigits_widen (m k n : Nat) (h : n < 10 ^ k) :
    padDigits (k + m) n = List.replicate m 0 ++ padDigits k n := by
  induction m with
  | zero => simp
  | succ m ih =>
    have hlt : n < 10 ^ (k + m) :=
      lt_of_lt_of_le h (Nat.pow_le_pow_right (by norm_num) (Nat.le_add_right _ _))
    show padDigits ((k + m) + 1) n = _
    simp only [padDigits]
    rw [Nat.div_eq_of_lt hlt, Nat.mod_eq_of_lt hlt, ih]
    simp [List.replicate_succ]

theorem digits_len_le_of_lt_pow (n k : Nat) (h : n < 10 ^ k) :
    (Nat.digits 10 n).length ≤ k := by
  rcases Nat.eq_zero_or_pos n with rfl | hn
  · simp
  · rw [Nat.digits_len 10 n (by norm_num) (by omega)]
    have := Nat.log_lt_of_lt_pow (by omega : n ≠ 0) h
    omega

theorem toDigitsCore_eq_digits :
    ∀ (n f : Nat) (l : List Char), n < f → 0 < n →
      Nat.toDigitsCore 10 f n l =
        ((Nat.digits 10 n).map Nat.digitChar).reverse ++ l := by
  intro n
  induction n using Nat.strong_induction_on with
  | _ n ih =>
    intro f l hnf hn
    obtain ⟨f, rfl⟩ : ∃ g, f = g + 1 := ⟨f - 1, by omega⟩
    by_cases hdiv : n / 10 = 0
    · have hn10 : n < 10 := by omega
      simp only [Nat.toDigitsCore, hdiv, if_true]
      rw [Nat.digits_of_lt 10 n (by omega) hn10]
      simp [Nat.mod_eq_of_lt hn10]
    · simp only [Nat.toDigitsCore, hdiv, if_false]
      rw [ih (n / 10) (Nat.div_lt_self hn (by norm_num)) f _ (by omega)
        (Nat.pos_of_ne_zero hdiv)]
      rw [Nat.digits_def' (by norm_num : (1:Nat) < 10) hn]
      simp [List.append_assoc]

theorem repr_data_eq_digits (n : Nat) (hn : 0 < n) :
    (Nat.repr n).data = ((Nat.digits 10 n).map Nat.digitChar).reverse := by
  have h0 : (Nat.repr n).data = Nat.toDigitsCore 10 (n+1) n [] := rfl
  rw [h0, toDigitsCore_eq_digits n (n+1) [] (Nat.lt_succ_self n) hn,
    List.append_nil]

theorem string_data_append (s t : String) : (s ++ t).data = s.data ++ t.data := rfl

theorem int_toString_coe (n : Nat) : toString ((n : Nat) : Int) = Nat.repr n := rfl

theorem padded_eq_padDigits (n : Nat) (h1 : 1 ≤ n) (h2 : n ≤ 10000) :
    _getPaddedPartNumber (n : Int) =
      String.mk ((padDigits 5 n).map Nat.digitChar) := by
  have hL : (Nat.digits 10 n).length = Nat.log 10 n + 1 :=
    Nat.digits_len 10 n (by norm_num) (by omega)
  have hnL : n < 10 ^ (Nat.digits 10 n).length := by
    rw [hL]; exact Nat.lt_pow_succ_log_self (by norm_num) n
  have hL5 : (Nat.digits 10 n).length ≤ 5 :=
    digits_len_le_of_lt_pow n 5 (by norm_num; omega)
  unfold _getPaddedPartNumber jsSubstrLastFive
  rw [int_toString_coe, string_data_append, repr_data_eq_digits n (by omega)]
  have hzeros : ("000000" : String).data = List.replicate 6 '0' := by decide
  rw [hzeros]
  set L := (Nat.digits 10 n).length with hLdef
  have hlens : (List.replicate 6 '0' ++
      ((Nat.digits 10 n).map Nat.digitChar).reverse).length = 6 + L := by
    simp only [List.length_append, List.length_replicate, List.length_reverse,
      List.length_map]
  rw [hlens]
  have hdropn : 6 + L - 5 = L + 1 := by omega
  rw [hdropn, List.drop_append_eq_append_drop, List.drop_replicate,
    List.length_replicate]
  have h16 : L + 1 - 6 = 0 := by omega
  rw [h16, List.drop_zero]
  have hpd : padDigits 5 n
      = List.replicate (5 - L) 0 ++ (Nat.digits 10 n).reverse := by
    conv_lhs => rw [show (5:Nat) = L + (5 - L) by omega]
    rw [padDigits_widen (5 - L) L n hnL, hLdef, digits_reverse_pad n]
  rw [hpd, List.map_append, List.map_replicate, List.map_reverse]
  have hdc0 : Nat.digitChar 0 = '0' := rfl
  have hcount : 6 - (L + 1) = 5 - L := by omega
  rw [hdc0, hcount]

theorem digitChar_mono :
    ∀ a : Nat, a < 10 → ∀ b : Nat, b < 10 → a < b →
      Nat.digitChar a < Nat.digitChar b := by decide

theorem padDigits_map_lt :
    ∀ (k x y : Nat), x < y → y < 10 ^ k →
      List.Lex (· < ·) ((padDigits k x).map Nat.digitChar)
        ((padDigits k y).map Nat.digitChar) := by
  intro k
  induction k with
  | zero =>
    intro x y hxy hy
    simp only [pow_zero] at hy
    omega
  | succ k ih =>
    intro x y hxy hy
    have hpos : 0 < 10 ^ k := Nat.pos_pow_of_pos _ (by norm_num)
    simp only [padDigits, List.map_cons]
    have hyd : y / 10 ^ k < 10 := by
      rw [Nat.div_lt_iff_lt_mul hpos]
      calc y < 10 ^ (k + 1) := hy
        _ = 10 * 10 ^ k := by ring
    have hxd : x / 10 ^ k ≤ y / 10 ^ k := Nat.div_le_div_right (le_of_lt hxy)
    rcases Nat.lt_or_ge (x / 10 ^ k) (y / 10 ^ k) with hlt | hge
    · exact List.Lex.rel (digitChar_mono _ (by omega) _ hyd hlt)
    · have heq : x / 10 ^ k = y / 10 ^ k := le_antisymm hxd hge
      have hmx : x = 10 ^ k * (x / 10 ^ k) + x % 10 ^ k :=
        (Nat.div_add_mod x (10 ^ k)).symm
      have hmy : y = 10 ^ k * (y / 10 ^ k) + y % 10 ^ k :=
        (Nat.div_add_mod y (10 ^ k)).symm
      rw [heq] at hmx
      have hmod : x % 10 ^ k < y % 10 ^ k := by linarith
      have hmod2 : y % 10 ^ k < 10 ^ k := Nat.mod_lt _ hpos
      rw [heq]
      exact List.Lex.cons (ih _ _ hmod hmod2)


def aOK : AuthInfo := ⟨"canon", false, "arn1"⟩

def bOK : Bucket := ⟨none, 2⟩

def ovOK : OverviewRecord := ⟨"canon"⟩

def rOK : Request := ⟨"bkt", "obj", "ns", some "1024", some "3", "uid", ""⟩

def wOK : World :=
  ⟨fun _ => .ok ⟨none, 2⟩, fun _ _ _ => true,
   fun _ => .error .InternalError,
   fun _ _ => .ok ⟨"canon"⟩, .ok (some "locA", "hashA"), .ok ()⟩

def rMD5 : Request := ⟨"bkt", "obj", "ns", some "1024", some "3", "uid", "eTag"⟩

def wNoBucket : World :=
  ⟨fun _ => .error .NoSuchBucket, fun _ _ _ => true,
   fun _ => .error .InternalError,
   fun _ _ => .ok ⟨"canon"⟩, .ok (some "locA", "hashA"), .ok ()⟩

def wNoOverview : World :=
  ⟨fun _ => .ok ⟨none, 2⟩, fun _ _ _ => true,
   fun _ => .error .InternalError,
   fun _ _ => .error .NoSuchKey, .ok (some "locA", "hashA"), .ok ()⟩

def wWrongInit : World :=
  ⟨fun _ => .ok ⟨none, 2⟩, fun _ _ _ => true,
   fun _ => .error .InternalError,
   fun _ _ => .ok ⟨"someoneElse"⟩, .ok (some "locA", "hashA"), .ok ()⟩

/-- C1: when the caller supplied an expected content hash and the computed
hash exists and differs from it, `batchDelete` is issued exactly once on the
returned location descriptor, the request fails with `BadDigest`, and no
part metadata record is written. -/
theorem c1_bad_digest_compensates
    (a : AuthInfo) (r : Request) (w : World)
    (bucket mpuBucket : Bucket) (res : OverviewRecord)
    (loc : Location) (h : String) (pn : Int) (cb : Option CipherBundle)
    (hpf : preflight r = .ok pn)
    (hb : w.getBucket r.bucketName = .ok bucket)
    (hauth : w.isBucketAuthorized bucket "objectPut" a.canonicalID = true)
    (hkms : cipherResult w bucket = .ok cb)
    (hmpu : w.getBucket (constantsMpuShadowName ++ r.bucketName) = .ok mpuBucket)
    (hov : w.getObjectMD (constantsMpuShadowName ++ r.bucketName)
        (_getPrefixKey (chosenSplitter mpuBucket) r.objectKey r.uploadId) = .ok res)
    (hinit : res.initiatorID = requesterID a)
    (hput : w.dataPut = .ok (some loc, h))
    (hsup : r.contentMD5 ≠ "") (hcomp : h ≠ "") (hne : r.contentMD5 ≠ h) :
    (objectPutPart a r w).1 = .error .BadDigest ∧
    (objectPutPart a r w).2.batchDeleteCalls = [loc] ∧
    (objectPutPart a r w).2.storePartCalls = [] := by
  have hds : dataStore w.dataPut r.contentMD5 = ⟨.error .BadDigest, [loc]⟩ := by
    rw [hput]
    simp [dataStore, hsup, hcomp, hne]
  simp [objectPutPart, hpf, hb, hauth, hkms, hmpu, hov, hinit, hds]

theorem c1_witness :
    (objectPutPart aOK rMD5 wOK).1 = .error .BadDigest ∧
    (objectPutPart aOK rMD5 wOK).2.batchDeleteCalls = ["locA"] ∧
    (objectPutPart aOK rMD5 wOK).2.storePartCalls = [] :=
  c1_bad_digest_compensates aOK rMD5 wOK bOK bOK ovOK "locA" "hashA" 3 none
    (by decide) (by decide) (by decide) (by decide) (by decide) (by decide)
    (by decide) (by decide) (by decide) (by decide) (by decide)

/-- C2: when the computed hash matches the supplied one (or none was
supplied) and every collaborator call succeeds, exactly one part metadata
record is written, its `contentMD5` is the computed hash, `batchDelete` is
never invoked, and the orchestrator returns the hash. -/
theorem c2_success_commits_once
    (a : AuthInfo) (r : Request) (w : World)
    (bucket mpuBucket : Bucket) (res : OverviewRecord)
    (loc : Location) (h : String) (pn : Int) (cb : Option CipherBundle)
    (hpf : preflight r = .ok pn)
    (hb : w.getBucket r.bucketName = .ok bucket)
    (hauth : w.isBucketAuthorized bucket "objectPut" a.canonicalID = true)
    (hkms : cipherResult w bucket = .ok cb)
    (hmpu : w.getBucket (constantsMpuShadowName ++ r.bucketName) = .ok mpuBucket)
    (hov : w.getObjectMD (constantsMpuShadowName ++ r.bucketName)
        (_getPrefixKey (chosenSplitter mpuBucket) r.objectKey r.uploadId) = .ok res)
    (hinit : res.initiatorID = requesterID a)
    (hput : w.dataPut = .ok (some loc, h))
    (hmd5 : r.contentMD5 = "" ∨ r.contentMD5 = h)
    (hstore : w.metadataStorePart = .ok ()) :
    (objectPutPart a r w).1 = .ok h ∧
    ((objectPutPart a r w).2.storePartCalls.map
        (fun c => c.mdParams.contentMD5)) = [h] ∧
    (objectPutPart a r w).2.batchDeleteCalls = [] := by
  have hds : dataStore w.dataPut r.contentMD5 = ⟨.ok (loc, h), []⟩ := by
    rw [hput]
    simp only [dataStore]
    rcases hmd5 with h1 | h1 <;> simp [h1]
  simp [objectPutPart, hpf, hb, hauth, hkms, hmpu, hov, hinit, hds, hstore]

theorem c2_witness :
    (objectPutPart aOK rOK wOK).1 = .ok "hashA" ∧
    ((objectPutPart aOK rOK wOK).2.storePartCalls.map
        (fun c => c.mdParams.contentMD5)) = ["hashA"] ∧
    (objectPutPart aOK rOK wOK).2.batchDeleteCalls = [] :=
  c2_success_commits_once aOK rOK wOK bOK bOK ovOK "locA" "hashA" 3 none
    (by decide) (by decide) (by decide) (by decide) (by decide) (by decide)
    (by decide) (by decide) (Or.inl (by decide)) (by decide)

/-- C3 counterexample: with the destination bucket absent from the metadata
store, the pipeline fails with `NoSuchUpload`, not with `NoSuchBucket` as
the claim states. -/
theorem c3_counterexample :
    (objectPutPart aOK rOK wNoBucket).1 = .error .NoSuchUpload ∧
    (objectPutPart aOK rOK wNoBucket).1 ≠ .error .NoSuchBucket := by decide

/-- C3 (amended): a missing destination bucket is remapped to
`NoSuchUpload`, exactly like a missing shadow (MPU) bucket. -/
theorem c3_missing_bucket_remaps
    (a : AuthInfo) (r : Request) (w : World) (pn : Int)
    (hpf : preflight r = .ok pn) :
    (w.getBucket r.bucketName = .error .NoSuchBucket →
      (objectPutPart a r w).1 = .error .NoSuchUpload) ∧
    (∀ (bucket : Bucket) (cb : Option CipherBundle),
      w.getBucket r.bucketName = .ok bucket →
      w.isBucketAuthorized bucket "objectPut" a.canonicalID = true →
      cipherResult w bucket = .ok cb →
      w.getBucket (constantsMpuShadowName ++ r.bucketName) =
        .error .NoSuchBucket →
      (objectPutPart a r w).1 = .error .NoSuchUpload) := by
  constructor
  · intro hb
    simp [objectPutPart, hpf, hb]
  · intro bucket cb hb hauth hkms hmpu
    simp [objectPutPart, hpf, hb, hauth, hkms, hmpu]

theorem c3_witness :
    (objectPutPart aOK rOK wNoBucket).1 = .error .NoSuchUpload :=
  (c3_missing_bucket_remaps aOK rOK wNoBucket 3 (by decide)).1 (by decide)

/-- C4 counterexample: when the overview-record lookup finds no record (the
metadata store answers with its NotFound-class error `NoSuchKey`), the
pipeline surfaces that error unchanged instead of `NoSuchUpload`; no data
write occurs. -/
theorem c4_counterexample :
    (objectPutPart aOK rOK wNoOverview).1 = .error .NoSuchKey ∧
    (objectPutPart aOK rOK wNoOverview).1 ≠ .error .NoSuchUpload ∧
    (objectPutPart aOK rOK wNoOverview).2.dataPutCalls = 0 := by decide

/-- C4 (amended): a failing overview-record lookup aborts the pipeline with
the metadata store's error propagated unchanged, and no data write occurs. -/
theorem c4_overview_lookup_error_propagates
    (a : AuthInfo) (r : Request) (w : World)
    (bucket mpuBucket : Bucket) (pn : Int) (cb : Option CipherBundle)
    (e : S3Error)
    (hpf : preflight r = .ok pn)
    (hb : w.getBucket r.bucketName = .ok bucket)
    (hauth : w.isBucketAuthorized bucket "objectPut" a.canonicalID = true)
    (hkms : cipherResult w bucket = .ok cb)
    (hmpu : w.getBucket (constantsMpuShadowName ++ r.bucketName) = .ok mpuBucket)
    (hov : w.getObjectMD (constantsMpuShadowName ++ r.bucketName)
        (_getPrefixKey (chosenSplitter mpuBucket) r.objectKey r.uploadId) =
        .error e) :
    (objectPutPart a r w).1 = .error e ∧
    (objectPutPart a r w).2.dataPutCalls = 0 ∧
    (objectPutPart a r w).2.storePartCalls = [] := by
  simp [objectPutPart, hpf, hb, hauth, hkms, hmpu, hov]

theorem c4_witness :
    (objectPutPart aOK rOK wNoOverview).1 = .error .NoSuchKey ∧
    (objectPutPart aOK rOK wNoOverview).2.dataPutCalls = 0 ∧
    (objectPutPart aOK rOK wNoOverview).2.storePartCalls = [] :=
  c4_overview_lookup_error_propagates aOK rOK wNoOverview bOK bOK 3 none
    .NoSuchKey (by decide) (by decide) (by decide) (by decide) (by decide)
    (by decide)

/-- C5: when the requester identity (ARN for an IAM user, canonical identity
otherwise) differs from the initiator identity stored in the overview
record, the pipeline fails with `AccessDenied` and no data write occurs. -/
theorem c5_initiator_mismatch_denied
    (a : AuthInfo) (r : Request) (w : World)
    (bucket mpuBucket : Bucket) (res : OverviewRecord)
    (pn : Int) (cb : Option CipherBundle)
    (hpf : preflight r = .ok pn)
    (hb : w.getBucket r.bucketName = .ok bucket)
    (hauth : w.isBucketAuthorized bucket "objectPut" a.canonicalID = true)
    (hkms : cipherResult w bucket = .ok cb)
    (hmpu : w.getBucket (constantsMpuShadowName ++ r.bucketName) = .ok mpuBucket)
    (hov : w.getObjectMD (constantsMpuShadowName ++ r.bucketName)
        (_getPrefixKey (chosenSplitter mpuBucket) r.objectKey r.uploadId) =
        .ok res)
    (hne : res.initiatorID ≠ requesterID a) :
    (objectPutPart a r w).1 = .error .AccessDenied ∧
    (objectPutPart a r w).2.dataPutCalls = 0 ∧
    (objectPutPart a r w).2.storePartCalls = [] := by
  simp [objectPutPart, hpf, hb, hauth, hkms, hmpu, hov, hne]

theorem c5_witness :
    (objectPutPart aOK rOK wWrongInit).1 = .error .AccessDenied ∧
    (objectPutPart aOK rOK wWrongInit).2.dataPutCalls = 0 ∧
    (objectPutPart aOK rOK wWrongInit).2.storePartCalls = [] :=
  c5_initiator_mismatch_denied aOK rOK wWrongInit bOK bOK ⟨"someoneElse"⟩ 3
    none (by decide) (by decide) (by decide) (by decide) (by decide)
    (by decide) (by decide)

def rBig : Request := ⟨"bkt", "obj", "ns", some "5368709121", some "3", "uid", ""⟩

def rDot : Request := ⟨"bkt", "obj", "ns", some "1024", some "3.7", "uid", ""⟩

def rNan : Request := ⟨"bkt", "obj", "ns", some "abc", some "3", "uid", ""⟩

def bOld : Bucket := ⟨none, 1⟩

def wOld : World :=
  ⟨fun _ => .ok ⟨none, 1⟩, fun _ _ _ => true,
   fun _ => .error .InternalError,
   fun _ _ => .ok ⟨"canon"⟩, .ok (some "locA", "hashA"), .ok ()⟩

/-- C6: a part number outside [1, 10000] is rejected with `TooManyParts`
above 10000 and `InvalidArgument` below 1 or on a non-integer parse, and a
declared size above 5368709120 is rejected with `EntityTooLarge`; in every
case the trace is empty, so no collaborator was contacted. -/
theorem c6_preflight_rejects_before_collaborators
    (a : AuthInfo) (r : Request) (w : World) :
    (checkSizeTooLarge r.parsedContentLength = true →
      objectPutPart a r w = (.error .EntityTooLarge, Trace.empty)) ∧
    (checkSizeTooLarge r.parsedContentLength = false →
      (∀ n : Int, jsParseIntOpt r.queryPartNumber = some n → 10000 < n →
        objectPutPart a r w = (.error .TooManyParts, Trace.empty)) ∧
      (∀ n : Int, jsParseIntOpt r.queryPartNumber = some n → n < 1 →
        objectPutPart a r w = (.error .InvalidArgument, Trace.empty)) ∧
      (jsParseIntOpt r.queryPartNumber = none →
        objectPutPart a r w = (.error .InvalidArgument, Trace.empty))) := by
  refine ⟨fun hsz => ?_,
    fun hsz => ⟨fun n hn hgt => ?_, fun n hn hlt => ?_, fun hn => ?_⟩⟩
  · simp [objectPutPart, preflight, hsz]
  · simp [objectPutPart, preflight, hsz, hn, hgt]
  · have hng : ¬ (10000:Int) < n := by omega
    simp [objectPutPart, preflight, hsz, hn, hng, hlt]
  · simp [objectPutPart, preflight, hsz, hn]

theorem c6_witness :
    objectPutPart aOK rBig wOK = (.error .EntityTooLarge, Trace.empty) :=
  (c6_preflight_rejects_before_collaborators aOK rBig wOK).1 (by decide)

/-- C7: the padding maps 1 to "00001" and 10000 to "10000", and on [1,
10000] it is strictly monotone with respect to lexicographic string
order. -/
theorem c7_padding_law :
    _getPaddedPartNumber 1 = "00001" ∧
    _getPaddedPartNumber 10000 = "10000" ∧
    ∀ p1 p2 : Nat, 1 ≤ p1 → p1 < p2 → p2 ≤ 10000 →
      _getPaddedPartNumber (p1 : Int) < _getPaddedPartNumber (p2 : Int) := by
  refine ⟨by decide, by decide, fun p1 p2 h1 h12 h2 => ?_⟩
  rw [padded_eq_padDigits p1 h1 (by omega), padded_eq_padDigits p2 (by omega) h2,
    String.lt_iff_toList_lt]
  exact padDigits_map_lt 5 p1 p2 h12 (by norm_num; omega)

theorem c7_witness :
    _getPaddedPartNumber ((1 : Nat) : Int) <
      _getPaddedPartNumber ((2 : Nat) : Int) :=
  c7_padding_law.2.2 1 2 (by norm_num) (by norm_num) (by norm_num)

/-- C8: the splitter chosen from the shadow bucket's schema version (legacy
below model version 2, current otherwise) is the one used both in the
overview-record lookup key and as the `splitter` field of the persisted
part record. -/
theorem c8_splitter_consistent
    (a : AuthInfo) (r : Request) (w : World)
    (bucket mpuBucket : Bucket) (res : OverviewRecord)
    (loc : Location) (h : String) (pn : Int) (cb : Option CipherBundle)
    (hpf : preflight r = .ok pn)
    (hb : w.getBucket r.bucketName = .ok bucket)
    (hauth : w.isBucketAuthorized bucket "objectPut" a.canonicalID = true)
    (hkms : cipherResult w bucket = .ok cb)
    (hmpu : w.getBucket (constantsMpuShadowName ++ r.bucketName) = .ok mpuBucket)
    (hov : w.getObjectMD (constantsMpuShadowName ++ r.bucketName)
        (_getPrefixKey (chosenSplitter mpuBucket) r.objectKey r.uploadId) = .ok res)
    (hinit : res.initiatorID = requesterID a)
    (hput : w.dataPut = .ok (some loc, h))
    (hmd5 : r.contentMD5 = "" ∨ r.contentMD5 = h)
    (hstore : w.metadataStorePart = .ok ()) :
    (objectPutPart a r w).2.getObjectMDCalls =
      [(constantsMpuShadowName ++ r.bucketName,
        _getPrefixKey (chosenSplitter mpuBucket) r.objectKey r.uploadId)] ∧
    ((objectPutPart a r w).2.storePartCalls.map
        (fun c => c.mdParams.splitter)) = [chosenSplitter mpuBucket] ∧
    chosenSplitter mpuBucket =
      (if mpuBucket.mdBucketModelVersion < 2 then constantsOldSplitter
        else constantsSplitter) := by
  have hds : dataStore w.dataPut r.contentMD5 = ⟨.ok (loc, h), []⟩ := by
    rw [hput]
    simp only [dataStore]
    rcases hmd5 with h1 | h1 <;> simp [h1]
  refine ⟨?_, ?_, rfl⟩ <;>
    simp [objectPutPart, hpf, hb, hauth, hkms, hmpu, hov, hinit, hds, hstore]

theorem c8_witness :
    (objectPutPart aOK rOK wOld).2.getObjectMDCalls =
      [(constantsMpuShadowName ++ rOK.bucketName,
        _getPrefixKey (chosenSplitter bOld) rOK.objectKey rOK.uploadId)] ∧
    ((objectPutPart aOK rOK wOld).2.storePartCalls.map
        (fun c => c.mdParams.splitter)) = [chosenSplitter bOld] ∧
    chosenSplitter bOld =
      (if bOld.mdBucketModelVersion < 2 then constantsOldSplitter
        else constantsSplitter) :=
  c8_splitter_consistent aOK rOK wOld bOld bOld ovOK "locA" "hashA" 3 none
    (by decide) (by decide) (by decide) (by decide) (by decide) (by decide)
    (by decide) (by decide) (Or.inl (by decide)) (by decide)

/-- C9: a partNumber query string whose decimal-integer prefix lies in
[1, 10000] passes validation even with trailing characters, and the part is
committed under the truncated integer value. -/
theorem c9_integer_prefix_accepted
    (a : AuthInfo) (r : Request) (w : World)
    (bucket mpuBucket : Bucket) (res : OverviewRecord)
    (loc : Location) (h : String) (pn : Int) (cb : Option CipherBundle)
    (hsz : checkSizeTooLarge r.parsedContentLength = false)
    (hn : jsParseIntOpt r.queryPartNumber = some pn)
    (h1 : 1 ≤ pn) (h2 : pn ≤ 10000)
    (hb : w.getBucket r.bucketName = .ok bucket)
    (hauth : w.isBucketAuthorized bucket "objectPut" a.canonicalID = true)
    (hkms : cipherResult w bucket = .ok cb)
    (hmpu : w.getBucket (constantsMpuShadowName ++ r.bucketName) = .ok mpuBucket)
    (hov : w.getObjectMD (constantsMpuShadowName ++ r.bucketName)
        (_getPrefixKey (chosenSplitter mpuBucket) r.objectKey r.uploadId) = .ok res)
    (hinit : res.initiatorID = requesterID a)
    (hput : w.dataPut = .ok (some loc, h))
    (hmd5 : r.contentMD5 = "" ∨ r.contentMD5 = h)
    (hstore : w.metadataStorePart = .ok ()) :
    (objectPutPart a r w).1 = .ok h ∧
    ((objectPutPart a r w).2.storePartCalls.map
        (fun c => c.mdParams.partNumber)) = [_getPaddedPartNumber pn] := by
  have hng : ¬ (10000:Int) < pn := by omega
  have hnl : ¬ pn < 1 := by omega
  have hpf : preflight r = .ok pn := by
    simp [preflight, hsz, hn, hng, hnl]
  have hds : dataStore w.dataPut r.contentMD5 = ⟨.ok (loc, h), []⟩ := by
    rw [hput]
    simp only [dataStore]
    rcases hmd5 with hx | hx <;> simp [hx]
  simp [objectPutPart, hpf, hb, hauth, hkms, hmpu, hov, hinit, hds, hstore]

theorem c9_witness :
    jsParseIntOpt rDot.queryPartNumber = some 3 ∧
    (objectPutPart aOK rDot wOK).1 = .ok "hashA" ∧
    ((objectPutPart aOK rDot wOK).2.storePartCalls.map
        (fun c => c.mdParams.partNumber)) = [_getPaddedPartNumber 3] :=
  ⟨by decide,
   c9_integer_prefix_accepted aOK rDot wOK bOK bOK ovOK "locA" "hashA" 3 none
     (by decide) (by decide) (by decide) (by decide) (by decide) (by decide)
     (by decide) (by decide) (by decide) (by decide) (by decide)
     (Or.inl (by decide)) (by decide)⟩

/-- C10: an absent or unparseable declared content length never triggers the
EntityTooLarge pre-check, the pipeline proceeds, and the raw declared size
value is persisted in the part metadata record. -/
theorem c10_unparseable_size_proceeds
    (a : AuthInfo) (r : Request) (w : World)
    (bucket mpuBucket : Bucket) (res : OverviewRecord)
    (loc : Location) (h : String) (pn : Int) (cb : Option CipherBundle)
    (hsznan : jsParseIntOpt r.parsedContentLength = none)
    (hn : jsParseIntOpt r.queryPartNumber = some pn)
    (h1 : 1 ≤ pn) (h2 : pn ≤ 10000)
    (hb : w.getBucket r.bucketName = .ok bucket)
    (hauth : w.isBucketAuthorized bucket "objectPut" a.canonicalID = true)
    (hkms : cipherResult w bucket = .ok cb)
    (hmpu : w.getBucket (constantsMpuShadowName ++ r.bucketName) = .ok mpuBucket)
    (hov : w.getObjectMD (constantsMpuShadowName ++ r.bucketName)
        (_getPrefixKey (chosenSplitter mpuBucket) r.objectKey r.uploadId) = .ok res)
    (hinit : res.initiatorID = requesterID a)
    (hput : w.dataPut = .ok (some loc, h))
    (hmd5 : r.contentMD5 = "" ∨ r.contentMD5 = h)
    (hstore : w.metadataStorePart = .ok ()) :
    checkSizeTooLarge r.parsedContentLength = false ∧
    (objectPutPart a r w).1 = .ok h ∧
    ((objectPutPart a r w).2.storePartCalls.map
        (fun c => c.mdParams.size)) = [r.parsedContentLength] := by
  have hchk : checkSizeTooLarge r.parsedContentLength = false := by
    simp [checkSizeTooLarge, hsznan]
  have hng : ¬ (10000:Int) < pn := by omega
  have hnl : ¬ pn < 1 := by omega
  have hpf : preflight r = .ok pn := by
    simp [preflight, hchk, hn, hng, hnl]
  have hds : dataStore w.dataPut r.contentMD5 = ⟨.ok (loc, h), []⟩ := by
    rw [hput]
    simp only [dataStore]
    rcases hmd5 with hx | hx <;> simp [hx]
  refine ⟨hchk, ?_, ?_⟩ <;>
    simp [objectPutPart, hpf, hb, hauth, hkms, hmpu, hov, hinit, hds, hstore]

theorem c10_witness :
    checkSizeTooLarge rNan.parsedContentLength = false ∧
    (objectPutPart aOK rNan wOK).1 = .ok "hashA" ∧
    ((objectPutPart aOK rNan wOK).2.storePartCalls.map
        (fun c => c.mdParams.size)) = [rNan.parsedContentLength] :=
  c10_unparseable_size_proceeds aOK rNan wOK bOK bOK ovOK "locA" "hashA" 3
    none (by decide) (by decide) (by decide) (by decide) (by decide)
    (by decide) (by decide) (by decide) (by decide) (by decide) (by decide)
    (Or.inl (by decide)) (by decide)
